import Mathlib

/-!
Verification of the vnstock-api Flask service (`src/app.py`).

The embedding models:
  * JSON values (`Json`) and the Python dicts returned by handlers
    (`Dict` = association list of key/value pairs, in insertion order);
  * one row of daily price data (`Bar`), whose fields may be absent,
    mirroring the duck-typed `'field' in latest` checks of the source;
  * the behaviour of one upstream source attempt (`SourceResult`):
    it raises, returns `None`, or returns a dataframe (list of bars);
  * the fetch routine `get_stock_price` with its source-fallback loop
    (`tryLoop`), the auth gate `verify_api_key`, and the two
    data-returning route handlers `get_stock` and `get_stocks_batch`.

Exceptions are modelled with `Except String`: a function that can raise
returns `Except String α`, and a `try/except` block is a `match` on it.
Numeric values are modelled as `Rat` (no claim depends on floating-point
rounding), Python `str.upper` as `upper` (ASCII case mapping).
-/

/-- JSON values, as produced by Flask's `jsonify` / parsed by `get_json`. -/
inductive Json where
  | null : Json
  | bool (b : Bool) : Json
  | num (q : Rat) : Json
  | str (s : String) : Json
  | arr (elems : List Json) : Json
  | obj (fields : List (String × Json)) : Json

/-- A Python dict with string keys, in insertion order. -/
abbrev Dict := List (String × Json)

/-- Python's `str.upper()` (ASCII case mapping). -/
def upper (s : String) : String := String.mk (s.data.map Char.toUpper)

/-- One row of daily price data as returned by an upstream source.
Each field may be absent, mirroring the `'field' in latest` checks in
`get_stock_price` (`close` is accessed unconditionally and raises a
`KeyError` when absent). -/
structure Bar where
  close : Option Rat
  time : Option String
  open_ : Option Rat
  high : Option Rat
  low : Option Rat
  volume : Option Int
deriving DecidableEq

/-- Outcome of one source attempt in the fallback loop of
`get_stock_price` (lines 40-52 of `app.py`): the attempt raises an
exception with message `msg`, returns `None`, or returns a dataframe
whose rows are `bars` (possibly empty). -/
inductive SourceResult where
  | err (msg : String)
  | noneDf
  | df (bars : List Bar)
deriving DecidableEq

/-- `sources = ['TCBS', 'VND', 'MSN', 'VCI']` (app.py line 36). -/
def sources : List String := ["TCBS", "VND", "MSN", "VCI"]

/-- The source-fallback loop (app.py lines 39-52).  The state carries
the Python local `df` — `none` while still unbound, `some none` when a
source returned `None`, `some (some bars)` when a source returned a
dataframe — and the local `last_error`.  A raising source records its
message and leaves `df` unchanged; a non-empty dataframe breaks out of
the loop. -/
def tryLoop (env : String → SourceResult) :
    List String → Option (Option (List Bar)) → Option String →
    Option (Option (List Bar)) × Option String
  | [], df, lastError => (df, lastError)
  | s :: rest, df, lastError =>
    match env s with
    | .err m => tryLoop env rest df (some m)
    | .noneDf => tryLoop env rest (some none) lastError
    | .df bars =>
      if bars.isEmpty then tryLoop env rest (some (some bars)) lastError
      else (some (some bars), lastError)

/-- Embedding of an optional decimal field of the latest bar:
`float(latest[k]) if k in latest else None` (app.py lines 66-68). -/
def optNum : Option Rat → Json
  | some q => .num q
  | none => .null

/-- Embedding of the optional volume field:
`int(latest['volume']) if 'volume' in latest else None` (app.py line 69). -/
def optInt : Option Int → Json
  | some n => .num (n : Rat)
  | none => .null

/-- Body of `get_stock_price` inside the outer `try` (app.py lines
31-70).  `avail` is the `Vnstock is not None` availability flag fixed at
startup, `env` gives each source's behaviour for this symbol and date
range, `endDate` is the query's end date computed in the loop.  The
`.error` case is the only exception reachable after the loop: the
`KeyError` from `latest['close']` when the winning bar has no close. -/
def get_stock_price_body (avail : Bool) (env : String → SourceResult)
    (endDate : String) (symbol : String) : Except String Dict :=
  if avail then
    let r := tryLoop env sources none none
    match r.1 with
    | some (some (b :: bs)) =>
      let latest := (b :: bs).getLast (List.cons_ne_nil b bs)
      match latest.close with
      | some c =>
        .ok [("symbol", .str (upper symbol)), ("price", .num c),
             ("date", .str (latest.time.getD endDate)),
             ("source", .str "vnstock3-api"),
             ("open", optNum latest.open_), ("high", optNum latest.high),
             ("low", optNum latest.low), ("volume", optInt latest.volume)]
      | none => .error "KeyError: close"
    | _ =>
      .ok [("error", .str ("No data available for " ++ symbol ++
              ". Last error: " ++ r.2.getD "None")),
           ("symbol", .str (upper symbol))]
  else
    .ok [("error", .str "vnstock not installed"), ("symbol", .str (upper symbol))]

/-- `get_stock_price` (app.py lines 30-72): the body wrapped in the
outer `try/except` whose handler returns
`{"error": str(e), "symbol": symbol.upper()}`. -/
def get_stock_price (avail : Bool) (env : String → SourceResult)
    (endDate : String) (symbol : String) : Dict :=
  match get_stock_price_body avail env endDate symbol with
  | .ok d => d
  | .error e => [("error", .str e), ("symbol", .str (upper symbol))]

/-- Truthiness of Python's `Optional[str]` (`None` and `""` are falsy). -/
def pyTruthyStr : Option String → Bool
  | none => false
  | some s => !(s == "")

/-- `verify_api_key` (app.py lines 23-28).  `API_KEY` is the secret
from the environment (`none` when unset), `provided_key` is the
`X-API-Key` header value (`none` when absent). -/
def verify_api_key (API_KEY : Option String) (provided_key : Option String) : Bool :=
  if pyTruthyStr API_KEY then provided_key == API_KEY else true

/-- The `/api/stock/<symbol>` handler `get_stock` (app.py lines 82-90),
returning (status code, body). -/
def get_stock (API_KEY : Option String) (avail : Bool)
    (env : String → SourceResult) (endDate : String)
    (provided_key : Option String) (symbol : String) : Nat × Dict :=
  if !(verify_api_key API_KEY provided_key) then
    (401, [("error", .str "Unauthorized")])
  else
    let result := get_stock_price avail env endDate symbol
    if (result.lookup "error").isSome then (404, result) else (200, result)

/-- One iteration of the batch loop (app.py lines 104-106): the element
taken from the `symbols` list is passed to `get_stock_price`.  For a
non-string element `symbol.upper()` raises an `AttributeError` before
any source is queried: each per-source attempt raises at line 41 (caught
and recorded), the post-loop error return raises at `symbol.upper()` on
line 56, and the outer `except` handler raises once more at
`symbol.upper()` on line 72, so the exception propagates out of
`get_stock_price` without any upstream call.  This is collapsed here
into an immediate raise. -/
def get_stock_price_py (avail : Bool) (env : String → SourceResult)
    (endDate : String) : Json → Except String Dict
  | .str s => .ok (get_stock_price avail env endDate s)
  | _ => .error "AttributeError: upper"

/-- Truthiness of a JSON value under Python semantics. -/
def jsonTruthy : Json → Bool
  | .null => false
  | .bool b => b
  | .num q => !(q == 0)
  | .str s => !(s == "")
  | .arr l => !l.isEmpty
  | .obj l => !l.isEmpty

/-- `isinstance(x, list)` on a parsed JSON value. -/
def isJsonArr : Json → Bool
  | .arr _ => true
  | _ => false

/-- The `/api/stocks` handler `get_stocks_batch` (app.py lines 92-108).
`body` is the parsed JSON request body.  `data.get('symbols', [])`
raises an `AttributeError` when the body is not a JSON object (`None`
from a `null` body, a list, string, number or boolean have no `.get`),
modelled by the `.error` fallthrough.  The result is
`Except String (status, body)`. -/
def get_stocks_batch (API_KEY : Option String) (avail : Bool)
    (env : String → SourceResult) (endDate : String)
    (provided_key : Option String) (body : Json) :
    Except String (Nat × Json) :=
  if !(verify_api_key API_KEY provided_key) then
    .ok (401, .obj [("error", .str "Unauthorized")])
  else
    match body with
    | .obj kvs =>
      let symbols := (kvs.lookup "symbols").getD (.arr [])
      if !(jsonTruthy symbols) || !(isJsonArr symbols) then
        .ok (400, .obj [("error", .str "symbols must be a non-empty array")])
      else
        match symbols with
        | .arr items =>
          match items.mapM (get_stock_price_py avail env endDate) with
          | .ok results =>
            .ok (200, .obj [("results", .arr (results.map Json.obj)),
                            ("count", .num (results.length : Rat))])
          | .error e => .error e
        | _ => .ok (400, .obj [("error", .str "symbols must be a non-empty array")])
    | _ => .error "AttributeError: get"

/-- A source outcome that does not break the fallback loop: it raised,
returned `None`, or returned an empty dataframe. -/
def failsOrEmpty : SourceResult → Bool
  | .err _ => true
  | .noneDf => true
  | .df bars => bars.isEmpty

/-- A source outcome that raised. -/
def isErr : SourceResult → Bool
  | .err _ => true
  | _ => false

/-- A `df` loop state that fails the post-loop check
`'df' not in locals() or df is None or df.empty` (app.py line 55). -/
def dfBad : Option (Option (List Bar)) → Bool
  | some (some (_ :: _)) => false
  | _ => true

-- Concrete data for witnesses and counterexamples.

/-- A bar carrying only a close price. -/
def barClose : Bar := ⟨some 5, none, none, none, none, none⟩

/-- A bar with every field present. -/
def barFull : Bar := ⟨some 7, some "2024-01-02", some 6, some 8, some 5, some 1000⟩

/-- Environment where every source raises. -/
def envAllErr : String → SourceResult := fun _ => .err "timeout"

/-- Environment: TCBS raises, VND succeeds with one bar, the rest raise. -/
def envSecond : String → SourceResult := fun s =>
  if s == "TCBS" then .err "boom"
  else if s == "VND" then .df [barFull]
  else .err "later"

/-- Variant of `envSecond` that differs on the sources after VND. -/
def envSecond' : String → SourceResult := fun s =>
  if s == "TCBS" then .err "boom"
  else if s == "VND" then .df [barFull]
  else .df [barClose]

/-- Environment where the first source returns a single bar that has
only a close price. -/
def envBare : String → SourceResult := fun s =>
  if s == "TCBS" then .df [barClose] else .err "later"

example : upper "fpt" = "FPT" := by decide

example : get_stock_price true envSecond "2024-01-05" "fpt" =
    [("symbol", .str "FPT"), ("price", .num 7), ("date", .str "2024-01-02"),
     ("source", .str "vnstock3-api"), ("open", .num 6), ("high", .num 8),
     ("low", .num 5), ("volume", .num 1000)] := by rfl

example : get_stock_price true envAllErr "2024-01-05" "fpt" =
    [("error", .str "No data available for fpt. Last error: timeout"),
     ("symbol", .str "FPT")] := by rfl

-- Helper lemmas about the fallback loop.

theorem isEmpty_false_of_ne_nil {α : Type} {l : List α} (h : l ≠ []) :
    l.isEmpty = false := by
  cases l with
  | nil => exact absurd rfl h
  | cons a as => rfl

/-- Failing sources before a succeeding one are skipped, the first
source answering a non-empty dataframe breaks the loop with exactly
that dataframe, and the loop result does not depend on the sources
after it (`post` vs `post'`, `env` vs `env'`). -/
theorem tryLoop_reach_success (env env' : String → SourceResult) (s : String)
    (bars : List Bar) (hs : env s = .df bars) (hs' : env' s = .df bars)
    (hne : bars ≠ []) (pre : List String) :
    ∀ (post post' : List String) (df : Option (Option (List Bar)))
      (le : Option String),
      (∀ t ∈ pre, failsOrEmpty (env t) = true) →
      (∀ t ∈ pre, env' t = env t) →
      ∃ le', tryLoop env (pre ++ s :: post) df le = (some (some bars), le') ∧
             tryLoop env' (pre ++ s :: post') df le = (some (some bars), le') := by
  induction pre with
  | nil =>
    intro post post' df le _ _
    exact ⟨le, by simp [tryLoop, hs, isEmpty_false_of_ne_nil hne],
               by simp [tryLoop, hs', isEmpty_false_of_ne_nil hne]⟩
  | cons t pre ih =>
    intro post post' df le hfail hagree
    have ht : failsOrEmpty (env t) = true := hfail t (List.mem_cons_self t pre)
    have ht' : env' t = env t := hagree t (List.mem_cons_self t pre)
    have hfail' : ∀ u ∈ pre, failsOrEmpty (env u) = true :=
      fun u hu => hfail u (List.mem_cons_of_mem _ hu)
    have hagree' : ∀ u ∈ pre, env' u = env u :=
      fun u hu => hagree u (List.mem_cons_of_mem _ hu)
    cases henv : env t with
    | err m =>
      obtain ⟨le', h1, h2⟩ := ih post post' df (some m) hfail' hagree'
      exact ⟨le', by simpa [tryLoop, henv] using h1,
                 by simpa [tryLoop, ht', henv] using h2⟩
    | noneDf =>
      obtain ⟨le', h1, h2⟩ := ih post post' (some none) le hfail' hagree'
      exact ⟨le', by simpa [tryLoop, henv] using h1,
                 by simpa [tryLoop, ht', henv] using h2⟩
    | df bars0 =>
      have hb : bars0.isEmpty = true := by simpa [failsOrEmpty, henv] using ht
      obtain ⟨le', h1, h2⟩ := ih post post' (some (some bars0)) le hfail' hagree'
      exact ⟨le', by simpa [tryLoop, henv, hb] using h1,
                 by simpa [tryLoop, ht', henv, hb] using h2⟩

/-- When every listed source fails or answers empty, the loop never
produces a usable dataframe. -/
theorem tryLoop_fail_dfBad (env : String → SourceResult) (l : List String) :
    ∀ df le, (∀ t ∈ l, failsOrEmpty (env t) = true) → dfBad df = true →
      dfBad (tryLoop env l df le).1 = true := by
  induction l with
  | nil => intro df le _ h; simpa [tryLoop] using h
  | cons t rest ih =>
    intro df le hfail hdf
    have ht : failsOrEmpty (env t) = true := hfail t (List.mem_cons_self t rest)
    have hrest : ∀ u ∈ rest, failsOrEmpty (env u) = true :=
      fun u hu => hfail u (List.mem_cons_of_mem _ hu)
    cases henv : env t with
    | err m => simpa [tryLoop, henv] using ih df (some m) hrest hdf
    | noneDf => simpa [tryLoop, henv] using ih (some none) le hrest rfl
    | df bars0 =>
      have hb : bars0.isEmpty = true := by simpa [failsOrEmpty, henv] using ht
      simpa [tryLoop, henv, hb] using ih (some (some bars0)) le hrest
        (by cases bars0 with
            | nil => rfl
            | cons b bs => simp [List.isEmpty] at hb)

/-- When every listed source fails or answers empty, the loop's final
`last_error` is the initial one if no source raised, and otherwise the
message of the last raising source. -/
theorem tryLoop_lastError_spec (env : String → SourceResult) (l : List String) :
    ∀ df le, (∀ t ∈ l, failsOrEmpty (env t) = true) →
      ((tryLoop env l df le).2 = le ∧ ∀ t ∈ l, isErr (env t) = false) ∨
      (∃ l1 s l2 m, l = l1 ++ s :: l2 ∧ env s = .err m ∧
        (tryLoop env l df le).2 = some m ∧ ∀ t ∈ l2, isErr (env t) = false) := by
  induction l with
  | nil => intro df le _; exact Or.inl ⟨rfl, by simp⟩
  | cons t rest ih =>
    intro df le hfail
    have hrest : ∀ u ∈ rest, failsOrEmpty (env u) = true :=
      fun u hu => hfail u (List.mem_cons_of_mem _ hu)
    have ht : failsOrEmpty (env t) = true := hfail t (List.mem_cons_self t rest)
    cases henv : env t with
    | err m =>
      have step : tryLoop env (t :: rest) df le = tryLoop env rest df (some m) := by
        simp [tryLoop, henv]
      rcases ih df (some m) hrest with ⟨h1, h2⟩ | ⟨l1, s, l2, m', h1, h2, h3, h4⟩
      · exact Or.inr ⟨[], t, rest, m, rfl, henv, by rw [step]; exact h1, h2⟩
      · exact Or.inr ⟨t :: l1, s, l2, m', by rw [h1]; rfl, h2, by rw [step]; exact h3, h4⟩
    | noneDf =>
      have step : tryLoop env (t :: rest) df le =
          tryLoop env rest (some none) le := by simp [tryLoop, henv]
      rcases ih (some none) le hrest with ⟨h1, h2⟩ | ⟨l1, s, l2, m', h1, h2, h3, h4⟩
      · refine Or.inl ⟨by rw [step]; exact h1, ?_⟩
        intro u hu
        rcases List.mem_cons.1 hu with h | h
        · rw [h, henv]; rfl
        · exact h2 u h
      · exact Or.inr ⟨t :: l1, s, l2, m', by rw [h1]; rfl, h2, by rw [step]; exact h3, h4⟩
    | df bars0 =>
      have hb : bars0.isEmpty = true := by simpa [failsOrEmpty, henv] using ht
      have step : tryLoop env (t :: rest) df le =
          tryLoop env rest (some (some bars0)) le := by simp [tryLoop, henv, hb]
      rcases ih (some (some bars0)) le hrest with ⟨h1, h2⟩ | ⟨l1, s, l2, m', h1, h2, h3, h4⟩
      · refine Or.inl ⟨by rw [step]; exact h1, ?_⟩
        intro u hu
        rcases List.mem_cons.1 hu with h | h
        · rw [h, henv]; rfl
        · exact h2 u h
      · exact Or.inr ⟨t :: l1, s, l2, m', by rw [h1]; rfl, h2, by rw [step]; exact h3, h4⟩

/-- `get_stock_price` depends on the sources only through the loop. -/
theorem get_stock_price_congr (env env' : String → SourceResult)
    (endDate symbol : String)
    (h : tryLoop env' sources none none = tryLoop env sources none none) :
    get_stock_price true env' endDate symbol =
      get_stock_price true env endDate symbol := by
  unfold get_stock_price get_stock_price_body
  rw [h]

/-- When every configured source fails or answers empty, the body of
`get_stock_price` reaches the post-loop "no data" return. -/
theorem get_stock_price_body_all_fail (env : String → SourceResult)
    (endDate symbol : String)
    (h : ∀ t ∈ sources, failsOrEmpty (env t) = true) :
    get_stock_price_body true env endDate symbol =
      .ok [("error", .str ("No data available for " ++ symbol ++
              ". Last error: " ++ (tryLoop env sources none none).2.getD "None")),
           ("symbol", .str (upper symbol))] := by
  have hbad : dfBad (tryLoop env sources none none).1 = true :=
    tryLoop_fail_dfBad env sources none none h rfl
  unfold get_stock_price_body
  cases e1 : (tryLoop env sources none none).1 with
  | none => simp [e1]
  | some o =>
    cases o with
    | none => simp [e1]
    | some l =>
      cases l with
      | nil => simp [e1]
      | cons b bs => rw [e1] at hbad; simp [dfBad] at hbad

/-- C1: for every symbol, the fetch routine tries the upstream sources
in the constant declared order TCBS, VND, MSN, VCI; as soon as one
source's attempt returns a non-empty bar set, iteration stops
immediately and that source's data is used, and the remaining sources
are never tried, regardless of their behavior: any environment agreeing
with `env` on the sources up to and including the winning one produces
the identical loop state and the identical fetch result. -/
theorem C1_first_success_wins (env env' : String → SourceResult)
    (endDate symbol : String) (pre post : List String) (s : String)
    (bars : List Bar)
    (hdec : sources = pre ++ s :: post)
    (hpre : ∀ t ∈ pre, failsOrEmpty (env t) = true)
    (hs : env s = .df bars) (hne : bars ≠ [])
    (hagree : ∀ t ∈ pre, env' t = env t) (hs' : env' s = env s) :
    sources = ["TCBS", "VND", "MSN", "VCI"] ∧
    (tryLoop env sources none none).1 = some (some bars) ∧
    tryLoop env' sources none none = tryLoop env sources none none ∧
    get_stock_price true env' endDate symbol =
      get_stock_price true env endDate symbol := by
  obtain ⟨le', h1, h2⟩ := tryLoop_reach_success env env' s bars hs
    (hs'.trans hs) hne pre post post none none hpre hagree
  have hloop : tryLoop env sources none none = (some (some bars), le') := by
    rw [hdec]; exact h1
  have hloop' : tryLoop env' sources none none = (some (some bars), le') := by
    rw [hdec]; exact h2
  refine ⟨rfl, by rw [hloop], hloop'.trans hloop.symm, ?_⟩
  exact get_stock_price_congr env env' endDate symbol (hloop'.trans hloop.symm)

/-- Concrete run of `C1_first_success_wins`: TCBS raises, VND answers a
non-empty dataframe, and the two environments differ on MSN and VCI. -/
theorem C1_witness :
    sources = ["TCBS", "VND", "MSN", "VCI"] ∧
    (tryLoop envSecond sources none none).1 = some (some [barFull]) ∧
    tryLoop envSecond' sources none none = tryLoop envSecond sources none none ∧
    get_stock_price true envSecond' "2024-01-05" "fpt" =
      get_stock_price true envSecond "2024-01-05" "fpt" :=
  C1_first_success_wins envSecond envSecond' "2024-01-05" "fpt"
    ["TCBS"] ["MSN", "VCI"] "VND" [barFull] (by rfl) (by decide)
    (by rfl) (by decide) (by decide) (by rfl)

/-- C3: when every configured source raises or returns an empty (or
absent) bar set, `get_stock_price` returns an ErrorResult whose message
embeds the symbol and the last raised error text (or the text "None"
when every source returned empty without raising). -/
theorem C3_all_sources_fail (env : String → SourceResult)
    (endDate symbol : String)
    (h : ∀ t ∈ sources, failsOrEmpty (env t) = true) :
    ∃ le : Option String,
      get_stock_price true env endDate symbol =
        [("error", .str ("No data available for " ++ symbol ++
            ". Last error: " ++ le.getD "None")),
         ("symbol", .str (upper symbol))] ∧
      ((le = none ∧ ∀ t ∈ sources, isErr (env t) = false) ∨
       (∃ l1 s l2 m, sources = l1 ++ s :: l2 ∧ env s = .err m ∧ le = some m ∧
          ∀ t ∈ l2, isErr (env t) = false)) ∧
      (∃ a b, "No data available for " ++ symbol ++
          ". Last error: " ++ le.getD "None" = a ++ symbol ++ b) ∧
      (∃ a b, "No data available for " ++ symbol ++
          ". Last error: " ++ le.getD "None" = a ++ le.getD "None" ++ b) := by
  refine ⟨(tryLoop env sources none none).2, ?_, ?_, ?_, ?_⟩
  · unfold get_stock_price
    rw [get_stock_price_body_all_fail env endDate symbol h]
  · rcases tryLoop_lastError_spec env sources none none h with ⟨h1, h2⟩ | hr
    · exact Or.inl ⟨h1, h2⟩
    · exact Or.inr hr
  · refine ⟨"No data available for ",
      ". Last error: " ++ (tryLoop env sources none none).2.getD "None", ?_⟩
    rw [String.append_assoc, String.append_assoc]
  · refine ⟨"No data available for " ++ symbol ++ ". Last error: ", "", ?_⟩
    rw [String.append_empty]

/-- Concrete run of `C3_all_sources_fail`: every source raises
"timeout", and the resulting ErrorResult embeds the symbol and that
last error text. -/
theorem C3_witness :
    ∃ le : Option String,
      get_stock_price true envAllErr "2024-01-05" "fpt" =
        [("error", .str ("No data available for " ++ "fpt" ++
            ". Last error: " ++ le.getD "None")),
         ("symbol", .str (upper "fpt"))] ∧
      ((le = none ∧ ∀ t ∈ sources, isErr (envAllErr t) = false) ∨
       (∃ l1 s l2 m, sources = l1 ++ s :: l2 ∧ envAllErr s = .err m ∧
          le = some m ∧ ∀ t ∈ l2, isErr (envAllErr t) = false)) ∧
      (∃ a b, "No data available for " ++ "fpt" ++
          ". Last error: " ++ le.getD "None" = a ++ "fpt" ++ b) ∧
      (∃ a b, "No data available for " ++ "fpt" ++
          ". Last error: " ++ le.getD "None" = a ++ le.getD "None" ++ b) :=
  C3_all_sources_fail envAllErr "2024-01-05" "fpt" (by decide)

/-- C5: when the upstream client library is unavailable at startup,
every call to `get_stock_price`, for every symbol, returns the
dependency-missing ErrorResult, and no source iteration is attempted:
the result is the same constant for every source environment. -/
theorem C5_dependency_missing (env : String → SourceResult)
    (endDate symbol : String) :
    get_stock_price false env endDate symbol =
      [("error", .str "vnstock not installed"),
       ("symbol", .str (upper symbol))] ∧
    ∀ env' : String → SourceResult,
      get_stock_price false env' endDate symbol =
        get_stock_price false env endDate symbol :=
  ⟨rfl, fun _ => rfl⟩

/-- C2, counterexample to the claim as stated: the first source answers
one bar that has a close price but no open field, yet the returned
Quote still includes an "open" key (bound to JSON null).  The claim
says the open/high/low/volume fields are included only if present in
the winning bar. -/
theorem C2_counterexample :
    envBare "TCBS" = SourceResult.df [barClose] ∧
    barClose.open_ = none ∧
    (get_stock_price true envBare "2024-01-05" "fpt").lookup "open" =
      some Json.null :=
  ⟨rfl, rfl, rfl⟩

/-- C2 as amended: when some source wins with a non-empty bar set whose
last bar carries a close value, `get_stock_price` returns a Quote whose
symbol is the uppercased input, price is the close of the last bar,
date is the bar's own timestamp if present and otherwise the query's
end date, source tag is the fixed identifier "vnstock3-api", and whose
open/high/low/volume keys are always emitted, bound to the bar's value
when present and to null otherwise. -/
theorem C2_amended (env : String → SourceResult) (endDate symbol : String)
    (pre post : List String) (s : String) (bars : List Bar) (b : Bar) (c : Rat)
    (hdec : sources = pre ++ s :: post)
    (hpre : ∀ t ∈ pre, failsOrEmpty (env t) = true)
    (hs : env s = .df bars) (hne : bars ≠ [])
    (hlast : bars.getLast? = some b)
    (hclose : b.close = some c) :
    get_stock_price true env endDate symbol =
      [("symbol", .str (upper symbol)), ("price", .num c),
       ("date", .str (b.time.getD endDate)), ("source", .str "vnstock3-api"),
       ("open", optNum b.open_), ("high", optNum b.high),
       ("low", optNum b.low), ("volume", optInt b.volume)] := by
  obtain ⟨le', h1, _⟩ := tryLoop_reach_success env env s bars hs hs hne
    pre post post none none hpre (fun _ _ => rfl)
  have hloop : tryLoop env sources none none = (some (some bars), le') := by
    rw [hdec]; exact h1
  cases bars with
  | nil => exact absurd rfl hne
  | cons b0 bs0 =>
    have hb : (b0 :: bs0).getLast (List.cons_ne_nil b0 bs0) = b := by
      have h2 := List.getLast?_eq_getLast (b0 :: bs0) (List.cons_ne_nil b0 bs0)
      exact Option.some.inj (h2.symm.trans hlast)
    unfold get_stock_price get_stock_price_body
    rw [hloop]
    simp [hb, hclose]

/-- Concrete run of `C2_amended`: TCBS raises, VND answers one bar with
every field present. -/
theorem C2_witness :
    get_stock_price true envSecond "2024-01-05" "fpt" =
      [("symbol", .str (upper "fpt")), ("price", .num 7),
       ("date", .str (barFull.time.getD "2024-01-05")),
       ("source", .str "vnstock3-api"),
       ("open", optNum barFull.open_), ("high", optNum barFull.high),
       ("low", optNum barFull.low), ("volume", optInt barFull.volume)] :=
  C2_amended envSecond "2024-01-05" "fpt" ["TCBS"] ["MSN", "VCI"] "VND"
    [barFull] barFull 7 (by rfl) (by decide) (by rfl) (by decide)
    (by rfl) (by rfl)

/-- C4, counterexample to the claim as stated: the first source raises
"boom" but a later source succeeds, so the exception is caught yet the
fetch result is a Quote with no error key at all — the exception is not
converted to an ErrorResult carrying its message. -/
theorem C4_counterexample :
    envSecond "TCBS" = SourceResult.err "boom" ∧
    (get_stock_price true envSecond "2024-01-05" "fpt").lookup "error" =
      none :=
  ⟨rfl, rfl⟩

/-- C4 as amended: `get_stock_price` never propagates an exception — it
totally evaluates to a result record: whenever its body runs without
raising it returns the body's record, and whenever the body raises the
exception is caught and converted to an ErrorResult carrying the
exception's message.  An exception raised by a source inside the
per-source loop is caught there and only recorded as the last error,
the loop continuing with the next source. -/
theorem C4_amended (avail : Bool) (env : String → SourceResult)
    (endDate symbol : String) :
    ((∃ d, get_stock_price_body avail env endDate symbol = .ok d ∧
        get_stock_price avail env endDate symbol = d) ∨
     (∃ e, get_stock_price_body avail env endDate symbol = .error e ∧
        get_stock_price avail env endDate symbol =
          [("error", .str e), ("symbol", .str (upper symbol))])) ∧
    (∀ s rest df le m, env s = .err m →
      tryLoop env (s :: rest) df le = tryLoop env rest df (some m)) := by
  constructor
  · cases hb : get_stock_price_body avail env endDate symbol with
    | ok d => exact Or.inl ⟨d, rfl, by unfold get_stock_price; rw [hb]⟩
    | error e => exact Or.inr ⟨e, rfl, by unfold get_stock_price; rw [hb]⟩
  · intro s rest df le m hm
    simp [tryLoop, hm]

/-- Concrete run of `C4_amended`: the raise of TCBS in `envSecond` is
caught and recorded as the last error, the loop moving on to VND. -/
theorem C4_witness :
    tryLoop envSecond ("TCBS" :: ["VND", "MSN", "VCI"]) none none =
      tryLoop envSecond ["VND", "MSN", "VCI"] none (some "boom") :=
  (C4_amended true envSecond "2024-01-05" "fpt").2 "TCBS" ["VND", "MSN", "VCI"]
    none none "boom" (by rfl)

/-- C6: requests to the data-returning routes are always permitted when
the shared secret is unset or empty; when it is set, they are permitted
exactly when the X-API-Key header equals the secret under exact string
equality, any other value (including an absent header) yielding a 401
response with body {"error": "Unauthorized"}. -/
theorem C6_auth_gate (API_KEY provided_key : Option String) (avail : Bool)
    (env : String → SourceResult) (endDate symbol : String) (body : Json) :
    ((API_KEY = none ∨ API_KEY = some "") →
       verify_api_key API_KEY provided_key = true) ∧
    (∀ k, API_KEY = some k → k ≠ "" →
       (verify_api_key API_KEY provided_key = true ↔ provided_key = some k)) ∧
    (verify_api_key API_KEY provided_key = false →
       get_stock API_KEY avail env endDate provided_key symbol =
         (401, [("error", Json.str "Unauthorized")]) ∧
       get_stocks_batch API_KEY avail env endDate provided_key body =
         .ok (401, Json.obj [("error", Json.str "Unauthorized")])) ∧
    (verify_api_key API_KEY provided_key = true →
       get_stock API_KEY avail env endDate provided_key symbol =
         ((if ((get_stock_price avail env endDate symbol).lookup "error").isSome
           then 404 else 200), get_stock_price avail env endDate symbol)) := by
  refine ⟨?_, ?_, ?_, ?_⟩
  · rintro (h | h) <;> subst h <;> rfl
  · intro k hk hne
    subst hk
    simp [verify_api_key, pyTruthyStr, hne]
  · intro hv
    constructor
    · unfold get_stock
      rw [hv]
      rfl
    · unfold get_stocks_batch
      rw [hv]
      rfl
  · intro hv
    cases hc : ((get_stock_price avail env endDate symbol).lookup "error").isSome <;>
      simp [get_stock, hv, hc]

/-- Concrete runs of `C6_auth_gate`: matching header permitted, absent
header rejected with the fixed 401 bodies, unset secret permitted. -/
theorem C6_witness :
    verify_api_key (some "secret") (some "secret") = true ∧
    verify_api_key (some "secret") none = false ∧
    get_stock (some "secret") true envSecond "2024-01-05" none "fpt" =
      (401, [("error", Json.str "Unauthorized")]) ∧
    get_stocks_batch (some "secret") true envSecond "2024-01-05" none Json.null =
      .ok (401, Json.obj [("error", Json.str "Unauthorized")]) ∧
    verify_api_key none none = true := by
  have h1 := C6_auth_gate (some "secret") (some "secret") true envSecond
    "2024-01-05" "fpt" Json.null
  have h2 := C6_auth_gate (some "secret") none true envSecond
    "2024-01-05" "fpt" Json.null
  have h3 := C6_auth_gate none none true envSecond "2024-01-05" "fpt" Json.null
  have hfalse : verify_api_key (some "secret") none = false := by decide
  exact ⟨(h1.2.1 "secret" rfl (by decide)).mpr rfl, hfalse,
    (h2.2.2.1 hfalse).1, (h2.2.2.1 hfalse).2, h3.1 (Or.inl rfl)⟩

/-- C7, counterexample to the claim as stated: an authorized batch body
whose symbols field is a non-empty list of non-strings ("not a sequence
of strings") passes the `isinstance(symbols, list)` check, so instead
of the 400 validation response the handler starts fetching and raises
on `symbol.upper()`. -/
theorem C7_counterexample :
    get_stocks_batch none true envSecond "2024-01-05" none
      (Json.obj [("symbols", Json.arr [Json.num 1])]) =
      .error "AttributeError: upper" :=
  rfl

/-- C7 as amended: for every authorized POST to the batch route whose
parsed body is a JSON object in which the symbols field is missing,
falsy (e.g. an empty sequence), or not a sequence, the response is 400
with the fixed error body naming the symbols requirement and no fetch
is attempted; element types are not validated. -/
theorem C7_amended (API_KEY provided_key : Option String) (avail : Bool)
    (env : String → SourceResult) (endDate : String)
    (kvs : List (String × Json))
    (hauth : verify_api_key API_KEY provided_key = true)
    (hbad : jsonTruthy ((kvs.lookup "symbols").getD (Json.arr [])) = false ∨
            isJsonArr ((kvs.lookup "symbols").getD (Json.arr [])) = false) :
    get_stocks_batch API_KEY avail env endDate provided_key (.obj kvs) =
      .ok (400, .obj [("error", .str "symbols must be a non-empty array")]) := by
  unfold get_stocks_batch
  rw [hauth]
  rcases hbad with h | h <;> simp [h]

/-- Concrete run of `C7_amended`: a body with no symbols field at all
is rejected with the 400 validation response. -/
theorem C7_witness :
    get_stocks_batch none true envSecond "2024-01-05" none (Json.obj []) =
      .ok (400, .obj [("error", .str "symbols must be a non-empty array")]) :=
  C7_amended none none true envSecond "2024-01-05" [] (by rfl) (Or.inl (by rfl))

/-- Mapping the batch loop over a list of string symbols never raises
and produces exactly the per-symbol fetch results, in order. -/
theorem mapM_over_strings (avail : Bool) (env : String → SourceResult)
    (endDate : String) (syms : List String) :
    (syms.map Json.str).mapM (get_stock_price_py avail env endDate) =
      .ok (syms.map (fun s => get_stock_price avail env endDate s)) := by
  induction syms with
  | nil => rfl
  | cons s rest ih =>
    rw [List.map_cons, List.mapM_cons, ih]
    rfl

/-- C8: every authorized batch request whose symbols field is a
non-empty list of N strings gets a 200 response whose results are the
per-symbol fetch outcomes in request order and whose count equals N,
regardless of the sources' behavior (per-symbol ErrorResults are
embedded per item and never fail the batch). -/
theorem C8_batch_in_order (API_KEY provided_key : Option String)
    (avail : Bool) (env : String → SourceResult) (endDate : String)
    (kvs : List (String × Json)) (syms : List String)
    (hauth : verify_api_key API_KEY provided_key = true)
    (hsy : kvs.lookup "symbols" = some (Json.arr (syms.map Json.str)))
    (hne : syms ≠ []) :
    get_stocks_batch API_KEY avail env endDate provided_key (.obj kvs) =
      .ok (200, .obj
        [("results", .arr ((syms.map (fun s =>
            get_stock_price avail env endDate s)).map Json.obj)),
         ("count", .num ((syms.length : Nat) : Rat))]) := by
  have hmap : (syms.map Json.str).isEmpty = false :=
    isEmpty_false_of_ne_nil (by
      cases syms with
      | nil => exact absurd rfl hne
      | cons a as => simp)
  have hm := mapM_over_strings avail env endDate syms
  unfold List.mapM at hm
  unfold get_stocks_batch
  simp [hauth, hsy, jsonTruthy, isJsonArr, hmap]
  rw [hm]
  simp [Function.comp, List.map_map]

/-- Concrete run of `C8_batch_in_order`: one symbol, count 1, the sole
result being that symbol's fetch outcome. -/
theorem C8_witness :
    get_stocks_batch none true envSecond "2024-01-05" none
      (Json.obj [("symbols", Json.arr [Json.str "fpt"])]) =
      .ok (200, .obj
        [("results", .arr ((["fpt"].map (fun s =>
            get_stock_price true envSecond "2024-01-05" s)).map Json.obj)),
         ("count", .num (((["fpt"] : List String).length : Nat) : Rat))]) :=
  C8_batch_in_order none none true envSecond "2024-01-05"
    [("symbols", Json.arr [Json.str "fpt"])] ["fpt"] (by rfl) (by rfl)
    (by decide)

/-- Every fetch outcome is one of exactly two shapes: an ErrorResult
`{"error": m, "symbol": upper}` or a Quote with the eight fixed keys,
the first of which is the uppercased symbol. -/
theorem get_stock_price_shapes (avail : Bool) (env : String → SourceResult)
    (endDate symbol : String) :
    (∃ m, get_stock_price avail env endDate symbol =
        [("error", Json.str m), ("symbol", Json.str (upper symbol))]) ∨
    (∃ c d o h l v, get_stock_price avail env endDate symbol =
        [("symbol", Json.str (upper symbol)), ("price", Json.num c),
         ("date", Json.str d), ("source", Json.str "vnstock3-api"),
         ("open", o), ("high", h), ("low", l), ("volume", v)]) := by
  cases avail with
  | false => exact Or.inl ⟨"vnstock not installed", rfl⟩
  | true =>
    cases e1 : (tryLoop env sources none none).1 with
    | none =>
      exact Or.inl ⟨"No data available for " ++ symbol ++ ". Last error: " ++
          (tryLoop env sources none none).2.getD "None",
        by unfold get_stock_price get_stock_price_body; simp [e1]⟩
    | some o =>
      cases o with
      | none =>
        exact Or.inl ⟨"No data available for " ++ symbol ++ ". Last error: " ++
            (tryLoop env sources none none).2.getD "None",
          by unfold get_stock_price get_stock_price_body; simp [e1]⟩
      | some l =>
        cases l with
        | nil =>
          exact Or.inl ⟨"No data available for " ++ symbol ++ ". Last error: " ++
              (tryLoop env sources none none).2.getD "None",
            by unfold get_stock_price get_stock_price_body; simp [e1]⟩
        | cons b bs =>
          cases e2 : ((b :: bs).getLast (List.cons_ne_nil b bs)).close with
          | none =>
            exact Or.inl ⟨"KeyError: close",
              by unfold get_stock_price get_stock_price_body; simp [e1, e2]⟩
          | some c =>
            exact Or.inr ⟨c, ((b :: bs).getLast (List.cons_ne_nil b bs)).time.getD endDate,
              optNum ((b :: bs).getLast (List.cons_ne_nil b bs)).open_,
              optNum ((b :: bs).getLast (List.cons_ne_nil b bs)).high,
              optNum ((b :: bs).getLast (List.cons_ne_nil b bs)).low,
              optInt ((b :: bs).getLast (List.cons_ne_nil b bs)).volume,
              by unfold get_stock_price get_stock_price_body; simp [e1, e2]⟩

/-- C9: every fetch outcome carries a symbol key equal to the
uppercased input (in ErrorResults as well as Quotes); it carries an
error key exactly when it is an ErrorResult, a Quote never carrying
one; and for permitted requests the single-symbol route answers 404
exactly on ErrorResults and otherwise 200 with the fetch result as
body. -/
theorem C9_result_invariant (API_KEY provided_key : Option String)
    (avail : Bool) (env : String → SourceResult) (endDate symbol : String) :
    (get_stock_price avail env endDate symbol).lookup "symbol" =
      some (.str (upper symbol)) ∧
    (((get_stock_price avail env endDate symbol).lookup "error").isSome = true ↔
      (∃ m, get_stock_price avail env endDate symbol =
        [("error", Json.str m), ("symbol", Json.str (upper symbol))])) ∧
    (verify_api_key API_KEY provided_key = true →
      get_stock API_KEY avail env endDate provided_key symbol =
        ((if ((get_stock_price avail env endDate symbol).lookup "error").isSome
          then 404 else 200), get_stock_price avail env endDate symbol) ∧
      ((get_stock API_KEY avail env endDate provided_key symbol).1 = 404 ↔
        (∃ m, get_stock_price avail env endDate symbol =
          [("error", Json.str m), ("symbol", Json.str (upper symbol))]))) := by
  have hroute : verify_api_key API_KEY provided_key = true →
      get_stock API_KEY avail env endDate provided_key symbol =
        ((if ((get_stock_price avail env endDate symbol).lookup "error").isSome
          then 404 else 200), get_stock_price avail env endDate symbol) := by
    intro hv
    cases hc : ((get_stock_price avail env endDate symbol).lookup "error").isSome <;>
      simp [get_stock, hv, hc]
  rcases get_stock_price_shapes avail env endDate symbol with ⟨m, hm⟩ | ⟨c, d, o, h, l, v, hm⟩
  · have hkey : ((get_stock_price avail env endDate symbol).lookup "error").isSome = true := by
      rw [hm]; rfl
    refine ⟨by rw [hm]; rfl, iff_of_true hkey ⟨m, hm⟩, fun hv => ⟨hroute hv, ?_⟩⟩
    rw [hroute hv, hkey]
    exact iff_of_true rfl ⟨m, hm⟩
  · have hkey : ((get_stock_price avail env endDate symbol).lookup "error").isSome = false := by
      rw [hm]; rfl
    have hnoterr : ¬∃ m, get_stock_price avail env endDate symbol =
        [("error", Json.str m), ("symbol", Json.str (upper symbol))] := by
      rintro ⟨m, he⟩
      rw [hm] at he
      have hlen := congrArg List.length he
      simp at hlen
    refine ⟨by rw [hm]; rfl, iff_of_false (by rw [hkey]; simp) hnoterr,
      fun hv => ⟨hroute hv, ?_⟩⟩
    rw [hroute hv, hkey]
    exact iff_of_false (by simp) hnoterr

/-- Concrete run of `C9_result_invariant`: with no secret configured
the single-symbol route discriminates by the error key. -/
theorem C9_witness :
    get_stock none true envSecond "2024-01-05" none "fpt" =
      ((if ((get_stock_price true envSecond "2024-01-05" "fpt").lookup
          "error").isSome then 404 else 200),
        get_stock_price true envSecond "2024-01-05" "fpt") ∧
    ((get_stock none true envSecond "2024-01-05" none "fpt").1 = 404 ↔
      (∃ m, get_stock_price true envSecond "2024-01-05" "fpt" =
        [("error", Json.str m), ("symbol", Json.str (upper "fpt"))])) :=
  (C9_result_invariant none none true envSecond "2024-01-05" "fpt").2.2 (by rfl)

/-- C10: a POST to the batch route whose parsed body is valid JSON but
not an object — the JSON literal null or a bare array — makes the
handler raise at the `.get` attribute access instead of returning the
400 validation error; the 400 validation path is reached only when the
parsed body is an object. -/
theorem C10_nonobject_body (avail : Bool) (env : String → SourceResult)
    (endDate : String) :
    get_stocks_batch none avail env endDate none Json.null =
      .error "AttributeError: get" ∧
    (∀ l, get_stocks_batch none avail env endDate none (Json.arr l) =
      .error "AttributeError: get") ∧
    (∀ (API_KEY provided_key : Option String) (body : Json) (r : Json),
      get_stocks_batch API_KEY avail env endDate provided_key body =
        .ok (400, r) → ∃ kvs, body = .obj kvs) := by
  refine ⟨rfl, fun l => rfl, ?_⟩
  intro API_KEY provided_key body r h
  cases body with
  | obj kvs => exact ⟨kvs, rfl⟩
  | null =>
    unfold get_stocks_batch at h
    cases hv : verify_api_key API_KEY provided_key <;> rw [hv] at h <;> simp at h
  | bool b =>
    unfold get_stocks_batch at h
    cases hv : verify_api_key API_KEY provided_key <;> rw [hv] at h <;> simp at h
  | num q =>
    unfold get_stocks_batch at h
    cases hv : verify_api_key API_KEY provided_key <;> rw [hv] at h <;> simp at h
  | str s =>
    unfold get_stocks_batch at h
    cases hv : verify_api_key API_KEY provided_key <;> rw [hv] at h <;> simp at h
  | arr l =>
    unfold get_stocks_batch at h
    cases hv : verify_api_key API_KEY provided_key <;> rw [hv] at h <;> simp at h

/-- Concrete run of `C10_nonobject_body`: a null body raises, and the
400 path taken by `{}` indeed has an object body. -/
theorem C10_witness :
    (∃ kvs, (Json.obj [] : Json) = Json.obj kvs) ∧
    get_stocks_batch none true envSecond "2024-01-05" none Json.null =
      .error "AttributeError: get" := by
  have h := C10_nonobject_body true envSecond "2024-01-05"
  exact ⟨h.2.2 none none (Json.obj [])
    (.obj [("error", .str "symbols must be a non-empty array")]) (by rfl), h.1⟩
